import Mathlib

/-!
Verification of the dynamic labor-supply / fertility model.

Shallow embedding of `DynLaborFertModel.py`: a finite-horizon dynamic
program for consumption, labor hours, human capital, children and spouse
presence, solved by backward induction and simulated forward.

Python floats are modelled as rationals (`ℚ`).  Two library primitives are
kept abstract, passed as function parameters:

* the float power operator `**` appearing in `util`
  (as `pw : ℚ → ℚ → ℚ`), since its exact value is irrelevant to every
  property proved here;
* bilinear interpolation `interp_2d` over the stored value/policy grids:
  the composite `fun kids spouse a k => interp_2d(a_grid, k_grid,
  sol.V[t+1, kids, spouse], a, k)` is modelled as an abstract function
  `Vnext : ℕ → ℕ → ℚ → ℚ → ℚ`, and similarly for the policy grids read by
  the simulator.
-/

namespace DynLaborFert

/-- Model parameters, from `setup` (source lines 19-62).  `w_vec` is the
wage vector built in `allocate` (line 113): `par.w * np.ones(par.T)`. -/
structure Par where
  T : ℕ
  rho : ℚ
  beta_0 : ℚ
  beta_1 : ℚ
  eta : ℚ
  gamma : ℚ
  alpha : ℚ
  w : ℚ
  tau : ℚ
  p_birth : ℚ
  p_spouse : ℚ
  theta : ℚ
  r : ℚ
  Nn : ℕ
  spouse_dummy : ℕ
  Ns : ℕ

/-- The baseline parameterization set in `setup`. -/
def par_ref : Par where
  T := 10
  rho := 98/100
  beta_0 := 1/10
  beta_1 := 5/100
  eta := -2
  gamma := 5/2
  alpha := 1/10
  w := 1
  tau := 1/10
  p_birth := 1/10
  p_spouse := 1
  theta := 0
  r := 2/100
  Nn := 2
  spouse_dummy := 0
  Ns := 2

/-- `par.w_vec[t]`: every entry equals `par.w` (allocate, line 113). -/
def w_vec (par : Par) (_t : ℕ) : ℚ := par.w

/-- `wage_func` (lines 263-267): after-tax wage rate. -/
def wage_func (par : Par) (capital : ℚ) (t : ℕ) : ℚ :=
  (1 - par.tau) * w_vec par t * (1 + par.alpha * capital)

/-- `spouse_income_func` (lines 269-274). -/
def spouse_income_func (par : Par) (spouse t : ℕ) : ℚ :=
  if par.spouse_dummy = 0 then 0 else (spouse : ℚ) * (1/10 + 1/100 * (t : ℚ))

/-- `childcare_cost` (lines 276-278). -/
def childcare_cost (par : Par) (kids : ℕ) : ℚ := par.theta * (kids : ℚ)

/-- `util` (lines 256-261).  The float power `**` is the abstract
parameter `pw`. -/
def util (par : Par) (pw : ℚ → ℚ → ℚ) (c hours : ℚ) (kids : ℕ) : ℚ :=
  let beta := par.beta_0 + par.beta_1 * (kids : ℚ)
  pw c (1 + par.eta) / (1 + par.eta) -
    beta * pw hours (1 + par.gamma) / (1 + par.gamma)

/-- `cons_last` (lines 181-189): terminal-period consumption implied by the
budget, floored at `1e-8`. -/
def cons_last (par : Par) (hours assets capital : ℚ) (kids spouse : ℕ) : ℚ :=
  let income_w := wage_func par capital (par.T - 1) * hours
  let spouse_income := spouse_income_func par spouse (par.T - 1)
  let income := income_w + spouse_income
  let cc := childcare_cost par kids
  max (assets + income - cc) (1/100000000)

/-- `obj_last` (lines 191-193). -/
def obj_last (par : Par) (pw : ℚ → ℚ → ℚ) (hours assets capital : ℚ)
    (kids spouse : ℕ) : ℚ :=
  - util par pw (cons_last par hours assets capital kids spouse) hours kids

/-- The penalty/clamp block of `value_of_choice` (lines 202-209).  Returns
`(penalty, cons, hours)` after the two `if` statements: a negative
`cons` contributes `cons * 1000` to the penalty and is replaced by `1e-5`;
negative `hours` contributes `hours * 1000` and is replaced by `0.0`. -/
def penalized (cons hours : ℚ) : ℚ × ℚ × ℚ :=
  let penalty : ℚ := 0
  let pc := if cons < 0 then (penalty + cons * 1000, (1 : ℚ)/100000) else (penalty, cons)
  let ph := if hours < 0 then (pc.1 + hours * 1000, (0 : ℚ)) else (pc.1, hours)
  (ph.1, pc.2, ph.2)

/-- Next-period assets as computed in `value_of_choice` (lines 215-219). -/
def a_next (par : Par) (assets capital cons hours : ℚ) (kids spouse : ℕ)
    (t : ℕ) : ℚ :=
  let income_w := wage_func par capital t * hours
  let spouse_income := spouse_income_func par spouse t
  let income := income_w + spouse_income
  let cc := childcare_cost par kids
  (1 + par.r) * (assets + income - cons - cc)

/-- Next-period human capital as computed in `value_of_choice`
(line 220). -/
def k_next (capital hours : ℚ) : ℚ := capital + hours

/-- The expected continuation value of `value_of_choice` (lines 222-250),
evaluated at the already-computed next-period coordinates
`(aN, kN)`.  `Vnext kids spouse a k` stands for
`interp_2d(a_grid, k_grid, sol.V[t+1, kids, spouse], a, k)`.  Mirrors the
source exactly: the running variable `kids_next` is left at `kids + 1`
by the birth branch whenever `kids < Nn - 1`, and the no-spouse slice is
read at that `kids_next`. -/
def EV_next (par : Par) (Vnext : ℕ → ℕ → ℚ → ℚ → ℚ) (aN kN : ℚ)
    (kids : ℕ) : ℚ :=
  let spouse_next := 1
  let no_spouse_next := 0
  -- no birth
  let V_next_no_birth := Vnext kids spouse_next aN kN
  -- birth: `(kids_next, V_next_birth)` after the if/else of lines 232-239
  let birth_branch :=
    if par.Nn - 1 ≤ kids then (kids, V_next_no_birth)
    else (kids + 1, Vnext (kids + 1) spouse_next aN kN)
  let kids_next := birth_branch.1
  let V_next_birth := birth_branch.2
  let V_next_no_spouse := Vnext kids_next no_spouse_next aN kN
  let EV_next_spouse :=
    par.p_birth * V_next_birth + (1 - par.p_birth) * V_next_no_birth
  let EV_next_no_spouse := V_next_no_spouse
  par.p_spouse * EV_next_spouse + (1 - par.p_spouse) * EV_next_no_spouse

/-- `value_of_choice` (lines 196-253): utility at the clamped choice, plus
the discounted expected continuation value, plus the penalty. -/
def value_of_choice (par : Par) (pw : ℚ → ℚ → ℚ)
    (Vnext : ℕ → ℕ → ℚ → ℚ → ℚ) (cons hours assets capital : ℚ)
    (kids spouse : ℕ) (t : ℕ) : ℚ :=
  let P := penalized cons hours
  let penalty := P.1
  let consC := P.2.1
  let hoursC := P.2.2
  let u := util par pw consC hoursC kids
  let aN := a_next par assets capital consC hoursC kids spouse t
  let kN := k_next capital hoursC
  u + par.rho * EV_next par Vnext aN kN kids + penalty

/-- The warm-start condition of the interior-period branch of `solve`
(line 172): the Python expression `i_n == 0 & i_s & i_a==0 & i_k==0`,
with Python operator precedence (`&` binds tighter than `==`, and `==`
chains): `i_n == (0 & i_s & i_a)` and `(0 & i_s & i_a) == (0 & i_k)` and
`(0 & i_k) == 0`.  When it is true the fixed default guess
`[lb_c, 1.0]` is used; otherwise the previous `res.x` is used. -/
def init_cond (i_n i_s i_a i_k : ℕ) : Bool :=
  (i_n == Nat.land (Nat.land 0 i_s) i_a) &&
    (Nat.land (Nat.land 0 i_s) i_a == Nat.land 0 i_k) &&
    (Nat.land 0 i_k == 0)

/-! Forward simulator (lines 283-322).

The simulation is independent per individual (the outer loop over `i`);
we model a single individual's trajectory.  The policy lookups
`interp_2d(a_grid, k_grid, sol.c[t, n, s], a, k)` and the corresponding
hours lookup are abstract functions of `(t, n, s, a, k)`. -/

/-- Per-individual simulation inputs: initial state, the pre-drawn uniform
variates, and the (interpolated) policy functions. -/
structure SimInput where
  a_init : ℚ
  k_init : ℚ
  n_init : ℕ
  draws_uniform : ℕ → ℚ
  draws_uniform_spouse : ℕ → ℚ
  policy_c : ℕ → ℕ → ℕ → ℚ → ℚ → ℚ
  policy_h : ℕ → ℕ → ℕ → ℚ → ℚ → ℚ

/-- The spouse indicator drawn at period `t` (lines 299-302). -/
def sim_s (par : Par) (inp : SimInput) (t : ℕ) : ℕ :=
  if inp.draws_uniform_spouse t ≤ par.p_spouse then 1 else 0

/-- The simulated state `(a, k, n)` of one individual at period `t`
(lines 293-296 for `t = 0`, lines 298-322 for the transition).  The
consumption and hours used in the budget are the interpolated policies at
the current state; the birth indicator follows line 320's condition. -/
def sim_state (par : Par) (inp : SimInput) : ℕ → ℚ × ℚ × ℕ
  | 0 => (inp.a_init, inp.k_init, inp.n_init)
  | t + 1 =>
      let st := sim_state par inp t
      let a := st.1
      let k := st.2.1
      let n := st.2.2
      let s := sim_s par inp t
      let c := inp.policy_c t n s a k
      let h := inp.policy_h t n s a k
      let income_w := wage_func par k t * h
      let spouse_income := spouse_income_func par s t
      let income := income_w + spouse_income
      let cc := childcare_cost par n
      let a1 := (1 + par.r) * (a + income - c - cc)
      let k1 := k + h
      let birth : ℕ :=
        if inp.draws_uniform t ≤ par.p_birth ∧ n < par.Nn - 1 ∧ s = 1
        then 1 else 0
      (a1, k1, n + birth)

/-- Simulated assets `sim.a[i, t]`. -/
def sim_a (par : Par) (inp : SimInput) (t : ℕ) : ℚ := (sim_state par inp t).1

/-- Simulated human capital `sim.k[i, t]`. -/
def sim_k (par : Par) (inp : SimInput) (t : ℕ) : ℚ := (sim_state par inp t).2.1

/-- Simulated children count `sim.n[i, t]`. -/
def sim_n (par : Par) (inp : SimInput) (t : ℕ) : ℕ := (sim_state par inp t).2.2

/-- Simulated consumption `sim.c[i, t]` (line 306). -/
def sim_c (par : Par) (inp : SimInput) (t : ℕ) : ℚ :=
  inp.policy_c t (sim_n par inp t) (sim_s par inp t) (sim_a par inp t) (sim_k par inp t)

/-- Simulated hours `sim.h[i, t]` (line 307). -/
def sim_h (par : Par) (inp : SimInput) (t : ℕ) : ℚ :=
  inp.policy_h t (sim_n par inp t) (sim_s par inp t) (sim_a par inp t) (sim_k par inp t)

/-! Claim-side definitions and concrete instances. -/

/-- Modelled from the spec: the expected-continuation-value formula as
claim C1 reads it, `p_spouse * [p_birth * V(birth, spouse) +
(1 - p_birth) * V(no_birth, spouse)] + (1 - p_spouse) *
V(no_birth, no_spouse)`, with the no-spouse branch read at the
*un-incremented* (no-birth) children level. -/
def EV_claimC1 (par : Par) (Vnext : ℕ → ℕ → ℚ → ℚ → ℚ) (aN kN : ℚ)
    (kids : ℕ) : ℚ :=
  let V_birth :=
    if par.Nn - 1 ≤ kids then Vnext kids 1 aN kN
    else Vnext (kids + 1) 1 aN kN
  par.p_spouse * (par.p_birth * V_birth + (1 - par.p_birth) * Vnext kids 1 aN kN)
    + (1 - par.p_spouse) * Vnext kids 0 aN kN

/-- A power function standing in for `**` on concrete inputs; its values
are irrelevant to the properties below. -/
def pw0 : ℚ → ℚ → ℚ := fun _ _ => 0

/-- A concrete next-period value function whose interpolant returns the
children index, used to separate value slices. -/
def Vdemo : ℕ → ℕ → ℚ → ℚ → ℚ := fun n _ _ _ => (n : ℚ)

/-- A second concrete value function, agreeing with `Vdemo` on every
children slice other than slice `2`. -/
def Vdemo2 : ℕ → ℕ → ℚ → ℚ → ℚ := fun n _ _ _ => if n = 2 then 99 else (n : ℚ)

/-- Baseline parameters with interior birth and spouse probabilities. -/
def par_half : Par :=
  { par_ref with p_birth := 1/2, p_spouse := 1/2 }

/-- Baseline parameters with `p_birth = 0`. -/
def par_nobirth : Par :=
  { par_ref with p_birth := 0 }

/-- A concrete simulation input whose birth draw is exactly `0` in every
period (a value `numpy.random.uniform` can return, lying in `[0, 1)`). -/
def inp_zero_draw : SimInput where
  a_init := 0
  k_init := 0
  n_init := 0
  draws_uniform := fun _ => 0
  draws_uniform_spouse := fun _ => 0
  policy_c := fun _ _ _ _ _ => 0
  policy_h := fun _ _ _ _ _ => 0

/-- A concrete simulation input with strictly positive birth draws. -/
def inp_pos_draw : SimInput where
  a_init := 0
  k_init := 0
  n_init := 0
  draws_uniform := fun _ => 1/2
  draws_uniform_spouse := fun _ => 0
  policy_c := fun _ _ _ _ _ => 0
  policy_h := fun _ _ _ _ _ => 0

/-- A concrete simulation input with nontrivial policies and draws, used
to witness the simulator theorems. -/
def inp_demo : SimInput where
  a_init := 1
  k_init := 2
  n_init := 0
  draws_uniform := fun _ => 1/100
  draws_uniform_spouse := fun _ => 1/2
  policy_c := fun _ n _ a _ => a / 2 + (n : ℚ)
  policy_h := fun t _ _ _ k => k / 4 + (t : ℚ)

/-! Helper lemmas. -/

/-- One step of the simulated children count. -/
lemma sim_n_succ (par : Par) (inp : SimInput) (t : ℕ) :
    sim_n par inp (t + 1) =
      sim_n par inp t +
        (if inp.draws_uniform t ≤ par.p_birth ∧ sim_n par inp t < par.Nn - 1 ∧
            sim_s par inp t = 1 then 1 else 0) := rfl

/-- The simulated children count never exceeds `Nn - 1` when it starts
below the cap. -/
lemma sim_n_le_cap (par : Par) (inp : SimInput)
    (hinit : inp.n_init ≤ par.Nn - 1) : ∀ t, sim_n par inp t ≤ par.Nn - 1 := by
  intro t
  induction t with
  | zero => exact hinit
  | succ t ih =>
      rw [sim_n_succ]
      split
      · next h => omega
      · omega

/-! Claim C1. -/

/-- Claim C1, as stated, is false: at `kids = 0 < Nn - 1`,
`p_spouse = p_birth = 1/2` and a value function separating the children
slices, `value_of_choice` does not equal utility plus discounted
`EV_claimC1` (the claimed formula, whose no-spouse branch reads the
un-incremented children slice): the code reads the no-spouse slice at the
birth-updated level `kids + 1`. -/
theorem C1_claimed_formula_fails :
    value_of_choice par_half pw0 Vdemo 1 1 0 0 0 1 0 ≠
      util par_half pw0 1 1 0 +
        par_half.rho * EV_claimC1 par_half Vdemo
          (a_next par_half 0 0 1 1 0 1 0) (k_next 0 1) 0 := by
  norm_num [value_of_choice, EV_next, penalized, util, pw0, Vdemo, EV_claimC1,
    a_next, k_next, par_half, par_ref, wage_func, w_vec, spouse_income_func,
    childcare_cost]

/-- Claim C1, amended: the expected continuation value computed by
`value_of_choice` equals
`p_spouse * [p_birth * V(birth, spouse) + (1 - p_birth) * V(no_birth, spouse)]
 + (1 - p_spouse) * V(kids', no_spouse)` where `kids'` is the possibly
birth-updated children level (`kids + 1` when `kids < Nn - 1`, else
`kids`), the birth slice is `kids + 1` exactly when `kids < Nn - 1`, and
the whole return value is utility at the clamped choice plus the
discounted expectation plus the penalty. -/
theorem C1_expected_continuation (par : Par) (pw : ℚ → ℚ → ℚ)
    (Vnext : ℕ → ℕ → ℚ → ℚ → ℚ) (cons hours assets capital : ℚ)
    (kids spouse : ℕ) (t : ℕ) :
    value_of_choice par pw Vnext cons hours assets capital kids spouse t =
      util par pw (penalized cons hours).2.1 (penalized cons hours).2.2 kids +
        par.rho *
          (par.p_spouse *
              (par.p_birth *
                  (if kids < par.Nn - 1 then
                    Vnext (kids + 1) 1
                      (a_next par assets capital (penalized cons hours).2.1
                        (penalized cons hours).2.2 kids spouse t)
                      (k_next capital (penalized cons hours).2.2)
                  else
                    Vnext kids 1
                      (a_next par assets capital (penalized cons hours).2.1
                        (penalized cons hours).2.2 kids spouse t)
                      (k_next capital (penalized cons hours).2.2)) +
                (1 - par.p_birth) *
                  Vnext kids 1
                    (a_next par assets capital (penalized cons hours).2.1
                      (penalized cons hours).2.2 kids spouse t)
                    (k_next capital (penalized cons hours).2.2)) +
            (1 - par.p_spouse) *
              (if kids < par.Nn - 1 then
                Vnext (kids + 1) 0
                  (a_next par assets capital (penalized cons hours).2.1
                    (penalized cons hours).2.2 kids spouse t)
                  (k_next capital (penalized cons hours).2.2)
              else
                Vnext kids 0
                  (a_next par assets capital (penalized cons hours).2.1
                    (penalized cons hours).2.2 kids spouse t)
                  (k_next capital (penalized cons hours).2.2))) +
        (penalized cons hours).1 := by
  simp only [value_of_choice, EV_next]
  rcases lt_or_le kids (par.Nn - 1) with h | h
  · simp only [if_neg (not_le.mpr h), if_pos h]
  · simp only [if_pos h, if_neg (not_lt.mpr h)]

/-! Claim C2. -/

/-- Claim C2 fails on the code: the warm-start guard of the
interior-period branch of `solve` (`i_n == 0 & i_s & i_a==0 & i_k==0`,
parsed with Python precedence) is `true` at the cell
`(i_n, i_s, i_a, i_k) = (0, 1, 3, 5)`, which is not the first cell of the
backward pass, and agrees with its value at the first cell `(0, 0, 0, 0)`:
the fixed default guess is re-used at every cell with children index 0. -/
theorem C2_default_guess_reused :
    init_cond 0 1 3 5 = true ∧ init_cond 0 1 3 5 = init_cond 0 0 0 0 := by
  decide

/-! Claim C3. -/

/-- Claim C3: in the continuation-value computation of `value_of_choice`,
when `kids ≥ Nn - 1` the birth continuation value is the same (uncapped)
no-birth value, so the expectation uses the slice `kids` for both birth
outcomes and does not depend on the `kids + 1` slice at all; the
`kids + 1` slice is interpolated exactly when `kids < Nn - 1`. -/
theorem C3_birth_cap (par : Par) (Vnext : ℕ → ℕ → ℚ → ℚ → ℚ)
    (aN kN : ℚ) (kids : ℕ) :
    (par.Nn - 1 ≤ kids →
      EV_next par Vnext aN kN kids =
        par.p_spouse *
            (par.p_birth * Vnext kids 1 aN kN +
              (1 - par.p_birth) * Vnext kids 1 aN kN) +
          (1 - par.p_spouse) * Vnext kids 0 aN kN) ∧
    (kids < par.Nn - 1 →
      EV_next par Vnext aN kN kids =
        par.p_spouse *
            (par.p_birth * Vnext (kids + 1) 1 aN kN +
              (1 - par.p_birth) * Vnext kids 1 aN kN) +
          (1 - par.p_spouse) * Vnext (kids + 1) 0 aN kN) ∧
    (par.Nn - 1 ≤ kids → ∀ V2 : ℕ → ℕ → ℚ → ℚ → ℚ,
      (∀ n s a k, n ≠ kids + 1 → Vnext n s a k = V2 n s a k) →
      EV_next par Vnext aN kN kids = EV_next par V2 aN kN kids) := by
  refine ⟨fun h => ?_, fun h => ?_, fun h V2 hag => ?_⟩
  · simp only [EV_next, if_pos h]
  · simp only [EV_next, if_neg (not_le.mpr h)]
  · simp only [EV_next, if_pos h]
    rw [hag kids 1 aN kN (by omega), hag kids 0 aN kN (by omega)]

/-- Witness for `C3_birth_cap` at concrete inputs: the baseline `Nn = 2`
with `kids = 1` (capped) and `kids = 0` (uncapped), and slice-independence
against `Vdemo2`, which differs from `Vdemo` only on slice `2`. -/
theorem C3_birth_cap_witness :
    (EV_next par_ref Vdemo 0 0 1 =
      par_ref.p_spouse *
          (par_ref.p_birth * Vdemo 1 1 0 0 +
            (1 - par_ref.p_birth) * Vdemo 1 1 0 0) +
        (1 - par_ref.p_spouse) * Vdemo 1 0 0 0) ∧
    (EV_next par_ref Vdemo 0 0 0 =
      par_ref.p_spouse *
          (par_ref.p_birth * Vdemo 1 1 0 0 +
            (1 - par_ref.p_birth) * Vdemo 0 1 0 0) +
        (1 - par_ref.p_spouse) * Vdemo 1 0 0 0) ∧
    EV_next par_ref Vdemo 0 0 1 = EV_next par_ref Vdemo2 0 0 1 :=
  ⟨(C3_birth_cap par_ref Vdemo 0 0 1).1 (by decide),
   (C3_birth_cap par_ref Vdemo 0 0 0).2.1 (by decide),
   (C3_birth_cap par_ref Vdemo 0 0 1).2.2 (by decide) Vdemo2
     (fun n s a k hn => by simp [Vdemo, Vdemo2, hn])⟩

/-! Claim C4. -/

/-- Claim C4: terminal-period consumption satisfies the static budget
identity `assets + wage(capital, T-1) * hours + spouse_income(spouse, T-1)
- childcare_cost(kids)` whenever that budget is at least the enforced
minimum `1e-8`, and is floored at `1e-8` when the budget falls below it. -/
theorem C4_cons_last_budget (par : Par) (hours assets capital : ℚ)
    (kids spouse : ℕ) :
    ((1 : ℚ)/100000000 ≤
        assets + wage_func par capital (par.T - 1) * hours +
          spouse_income_func par spouse (par.T - 1) - childcare_cost par kids →
      cons_last par hours assets capital kids spouse =
        assets + wage_func par capital (par.T - 1) * hours +
          spouse_income_func par spouse (par.T - 1) - childcare_cost par kids) ∧
    (assets + wage_func par capital (par.T - 1) * hours +
        spouse_income_func par spouse (par.T - 1) - childcare_cost par kids <
          (1 : ℚ)/100000000 →
      cons_last par hours assets capital kids spouse = (1 : ℚ)/100000000) := by
  constructor
  · intro h
    simp only [cons_last]
    rw [max_eq_left (by linarith)]
    ring
  · intro h
    simp only [cons_last]
    rw [max_eq_right (by linarith)]

/-- Witness for `C4_cons_last_budget`: at the baseline parameters the
budget binds at `(hours, assets) = (1, 0)` and the floor binds at
`(1, -50)`. -/
theorem C4_cons_last_budget_witness :
    cons_last par_ref 1 0 0 0 0 =
      0 + wage_func par_ref 0 (par_ref.T - 1) * 1 +
        spouse_income_func par_ref 0 (par_ref.T - 1) - childcare_cost par_ref 0 ∧
    cons_last par_ref 1 (-50) 0 0 0 = (1 : ℚ)/100000000 :=
  ⟨(C4_cons_last_budget par_ref 1 0 0 0 0).1
     (by norm_num [wage_func, w_vec, spouse_income_func, childcare_cost, par_ref]),
   (C4_cons_last_budget par_ref 1 (-50) 0 0 0).2
     (by norm_num [wage_func, w_vec, spouse_income_func, childcare_cost, par_ref])⟩

/-! Claim C5. -/

/-- Claim C5, as stated, is false in one detail: at `(cons, hours) =
(1, -1)` the penalty `-1000 = 1000 * hours` is added and the hours value
used for utility and the budget is clamped to `0`, which is not a
positive value.  The last conjunct shows `value_of_choice` evaluating
utility and the budget at hours `0`. -/
theorem C5_hours_clamped_to_zero :
    (penalized 1 (-1)).1 = -1000 ∧ (penalized 1 (-1)).2.2 = 0 ∧
    ¬ 0 < (penalized 1 (-1)).2.2 ∧
    value_of_choice par_ref pw0 Vdemo 1 (-1) 0 0 0 1 0 =
      util par_ref pw0 1 0 0 +
        par_ref.rho * EV_next par_ref Vdemo (a_next par_ref 0 0 1 0 0 1 0)
          (k_next 0 0) 0 + (-1) * 1000 := by
  refine ⟨by norm_num [penalized], by norm_num [penalized],
    by norm_num [penalized], ?_⟩
  norm_num [value_of_choice, penalized]

/-- Claim C5, amended: a negative consumption contributes `1000 * cons`
to the penalty and is replaced by the small positive value `1e-5`; a
negative hours value contributes `1000 * hours` and is replaced by `0`
(not a positive value); non-negative inputs incur no penalty and are left
unchanged; and `value_of_choice` at any input equals `value_of_choice` at
the clamped input plus the penalty. -/
theorem C5_penalty_clamp (par : Par) (pw : ℚ → ℚ → ℚ)
    (Vnext : ℕ → ℕ → ℚ → ℚ → ℚ) (cons hours assets capital : ℚ)
    (kids spouse : ℕ) (t : ℕ) :
    (cons < 0 → hours < 0 →
      penalized cons hours = (cons * 1000 + hours * 1000, 1/100000, 0)) ∧
    (cons < 0 → 0 ≤ hours →
      penalized cons hours = (cons * 1000, 1/100000, hours)) ∧
    (0 ≤ cons → hours < 0 →
      penalized cons hours = (hours * 1000, cons, 0)) ∧
    (0 ≤ cons → 0 ≤ hours → penalized cons hours = (0, cons, hours)) ∧
    value_of_choice par pw Vnext cons hours assets capital kids spouse t =
      value_of_choice par pw Vnext (penalized cons hours).2.1
        (penalized cons hours).2.2 assets capital kids spouse t +
      (penalized cons hours).1 := by
  have hpp : ∀ c h : ℚ, 0 ≤ c → 0 ≤ h → penalized c h = (0, c, h) := by
    intro c h hc hh
    simp [penalized, not_lt.mpr hc, not_lt.mpr hh]
  refine ⟨fun hc hh => ?_, fun hc hh => ?_, fun hc hh => ?_,
    fun hc hh => hpp cons hours hc hh, ?_⟩
  · simp [penalized, hc, hh]
  · simp [penalized, hc, not_lt.mpr hh]
  · simp [penalized, not_lt.mpr hc, hh]
  · have h1 : 0 ≤ (penalized cons hours).2.1 := by
      simp only [penalized]
      split
      · norm_num
      · next h => exact le_of_not_lt h
    have h2 : 0 ≤ (penalized cons hours).2.2 := by
      simp only [penalized]
      split
      · norm_num
      · next h => exact le_of_not_lt h
    simp only [value_of_choice, hpp _ _ h1 h2]
    ring

/-- Witness for `C5_penalty_clamp` at the four sign patterns. -/
theorem C5_penalty_clamp_witness :
    penalized (-1) (-2) = ((-1) * 1000 + (-2) * 1000, 1/100000, 0) ∧
    penalized (-1) 2 = ((-1) * 1000, 1/100000, 2) ∧
    penalized 1 (-2) = ((-2) * 1000, 1, 0) ∧
    penalized 1 2 = (0, 1, 2) :=
  ⟨(C5_penalty_clamp par_ref pw0 Vdemo (-1) (-2) 0 0 0 1 0).1
      (by norm_num) (by norm_num),
   (C5_penalty_clamp par_ref pw0 Vdemo (-1) 2 0 0 0 1 0).2.1
      (by norm_num) (by norm_num),
   (C5_penalty_clamp par_ref pw0 Vdemo 1 (-2) 0 0 0 1 0).2.2.1
      (by norm_num) (by norm_num),
   (C5_penalty_clamp par_ref pw0 Vdemo 1 2 0 0 0 1 0).2.2.2.1
      (by norm_num) (by norm_num)⟩

/-! Claim C6. -/

/-- Claim C6: along every simulated trajectory the children count is
non-decreasing from one period to the next, never exceeds `Nn - 1` when
the initial count is at most `Nn - 1`, and strictly increases only when
the spouse indicator of the period is `1` and the birth draw succeeds
(`draw ≤ p_birth`). -/
theorem C6_children_invariants (par : Par) (inp : SimInput)
    (hinit : inp.n_init ≤ par.Nn - 1) (t : ℕ) (_ht : t + 2 ≤ par.T) :
    sim_n par inp t ≤ sim_n par inp (t + 1) ∧
    sim_n par inp t ≤ par.Nn - 1 ∧
    sim_n par inp (t + 1) ≤ par.Nn - 1 ∧
    (sim_n par inp t < sim_n par inp (t + 1) →
      sim_s par inp t = 1 ∧ inp.draws_uniform t ≤ par.p_birth) := by
  refine ⟨?_, sim_n_le_cap par inp hinit t, sim_n_le_cap par inp hinit (t + 1), ?_⟩
  · rw [sim_n_succ]
    exact Nat.le_add_right _ _
  · rw [sim_n_succ]
    split
    · next h => exact fun _ => ⟨h.2.2, h.1⟩
    · intro hlt
      exact absurd hlt (by omega)

/-- Witness for `C6_children_invariants` on a concrete trajectory whose
first-period birth draw succeeds with the spouse present. -/
theorem C6_children_invariants_witness :
    sim_n par_ref inp_demo 0 ≤ sim_n par_ref inp_demo 1 ∧
    sim_n par_ref inp_demo 0 ≤ par_ref.Nn - 1 ∧
    sim_n par_ref inp_demo 1 ≤ par_ref.Nn - 1 ∧
    (sim_n par_ref inp_demo 0 < sim_n par_ref inp_demo 1 →
      sim_s par_ref inp_demo 0 = 1 ∧
        inp_demo.draws_uniform 0 ≤ par_ref.p_birth) :=
  C6_children_invariants par_ref inp_demo (by decide) 0 (by decide)

/-! Claim C7. -/

/-- Claim C7, as stated, is false at a boundary point of `[0, 1)`: with
`p_birth = 0`, a supplied birth draw of exactly `0` (a value of `[0, 1)`)
passes the comparison `draw ≤ p_birth`, so with a spouse present the
children count increments away from its initial value. -/
theorem C7_zero_draw_births :
    par_nobirth.p_birth = 0 ∧ inp_zero_draw.draws_uniform 0 = 0 ∧
    inp_zero_draw.n_init = 0 ∧ sim_n par_nobirth inp_zero_draw 1 = 1 := by
  refine ⟨rfl, rfl, rfl, ?_⟩
  norm_num [sim_n, sim_state, sim_s, par_nobirth, par_ref, inp_zero_draw]

/-- Claim C7, amended: with `p_birth = 0` the simulated children count
stays at its initial value in every period, for all supplied birth draws
that are strictly positive. -/
theorem C7_pbirth_zero (par : Par) (inp : SimInput) (h0 : par.p_birth = 0)
    (hd : ∀ s, 0 < inp.draws_uniform s) (t : ℕ) :
    sim_n par inp t = inp.n_init := by
  induction t with
  | zero => rfl
  | succ t ih =>
      rw [sim_n_succ, ih]
      rw [if_neg ?_]
      · omega
      · rintro ⟨hle, -, -⟩
        rw [h0] at hle
        exact absurd hle (not_le.mpr (hd t))

/-- Witness for `C7_pbirth_zero` with strictly positive draws. -/
theorem C7_pbirth_zero_witness :
    par_nobirth.p_birth = 0 ∧
    sim_n par_nobirth inp_pos_draw 3 = inp_pos_draw.n_init :=
  ⟨rfl, C7_pbirth_zero par_nobirth inp_pos_draw rfl
    (fun s => by norm_num [inp_pos_draw]) 3⟩

/-! Claim C8. -/

/-- Claim C8: the forward simulator's state transition refines the
solver's: next-period simulated assets and human capital are exactly
`a_next` and `k_next` (the functions used inside `value_of_choice`)
applied at the current simulated state, spouse indicator and interpolated
choices. -/
theorem C8_sim_transition (par : Par) (inp : SimInput) (t : ℕ)
    (_ht : t + 2 ≤ par.T) :
    sim_a par inp (t + 1) =
      a_next par (sim_a par inp t) (sim_k par inp t) (sim_c par inp t)
        (sim_h par inp t) (sim_n par inp t) (sim_s par inp t) t ∧
    sim_k par inp (t + 1) = k_next (sim_k par inp t) (sim_h par inp t) :=
  ⟨rfl, rfl⟩

/-- Witness for `C8_sim_transition` on a concrete trajectory. -/
theorem C8_sim_transition_witness :
    sim_a par_ref inp_demo 1 =
      a_next par_ref (sim_a par_ref inp_demo 0) (sim_k par_ref inp_demo 0)
        (sim_c par_ref inp_demo 0) (sim_h par_ref inp_demo 0)
        (sim_n par_ref inp_demo 0) (sim_s par_ref inp_demo 0) 0 ∧
    sim_k par_ref inp_demo 1 =
      k_next (sim_k par_ref inp_demo 0) (sim_h par_ref inp_demo 0) :=
  C8_sim_transition par_ref inp_demo 0 (by decide)

/-! Claim C9. -/

/-- Claim C9: under the baseline parameters (`tau = 1/10 < 1`,
`alpha = 1/10 > 0`, `w_vec[t] = 1 > 0`), the wage is monotonically
non-decreasing in capital and non-negative on non-negative capital, in
every period of the horizon. -/
theorem C9_wage_monotone (t : ℕ) (_ht : t < par_ref.T) (k1 k2 : ℚ)
    (h0 : 0 ≤ k1) (h12 : k1 ≤ k2) :
    wage_func par_ref k1 t ≤ wage_func par_ref k2 t ∧
    0 ≤ wage_func par_ref k1 t := by
  constructor <;>
    · simp only [wage_func, w_vec, par_ref]
      nlinarith

/-- Witness for `C9_wage_monotone` at `t = 0`, `k1 = 1`, `k2 = 2`. -/
theorem C9_wage_monotone_witness :
    wage_func par_ref 1 0 ≤ wage_func par_ref 2 0 ∧
    0 ≤ wage_func par_ref 1 0 :=
  C9_wage_monotone 0 (by decide) 1 2 (by norm_num) (by norm_num)

/-! Claim C10. -/

/-- Claim C10: for every input, including negative assets and negative
hours, `cons_last` returns at least `1e-8`, hence a strictly positive
consumption, so `obj_last` evaluates `util` at strictly positive
consumption; and with the baseline `eta = -2` the CRRA divisor
`1 + eta = -1` is nonzero. -/
theorem C10_cons_floor (par : Par) (hours assets capital : ℚ)
    (kids spouse : ℕ) :
    (1 : ℚ)/100000000 ≤ cons_last par hours assets capital kids spouse ∧
    0 < cons_last par hours assets capital kids spouse ∧
    1 + par_ref.eta = -1 ∧ 1 + par_ref.eta ≠ 0 := by
  simp only [cons_last]
  refine ⟨le_max_right _ _, lt_of_lt_of_le (by norm_num) (le_max_right _ _),
    ?_, ?_⟩ <;> norm_num [par_ref]

end DynLaborFert
